import Mathlib

/-!
Verification of the OrderMe backend order/inventory core against its
natural-language specification.

The Python source under `backend/app` is shallowly embedded: SQLAlchemy
rows become Lean structures, the database session becomes an explicit
`DBState` threaded through each service operation, Python `int` becomes
`Int`, `Numeric`/`float` money values become `ℚ`, and raised exceptions
become an `Except PyError` result.  The repository layer is modelled as a
pure state store with the `BaseRepository` semantics the services are
written against (get-by-id, per-field update, insert); committed writes
persist even when a later statement raises, exactly as in the source,
where each repository call commits individually.
-/

namespace OrderMe

/-- Python exceptions raised by the embedded code. -/
inductive PyError where
  | valueError : String → PyError
  | attributeError : String → PyError
deriving DecidableEq, Repr

instance {ε α : Type} [DecidableEq ε] [DecidableEq α] : DecidableEq (Except ε α) := fun x y =>
  match x, y with
  | .ok a, .ok b =>
      if h : a = b then isTrue (by rw [h])
      else isFalse (fun hc => h (by injection hc))
  | .error a, .error b =>
      if h : a = b then isTrue (by rw [h])
      else isFalse (fun hc => h (by injection hc))
  | .ok _, .error _ => isFalse (fun hc => Except.noConfusion hc)
  | .error _, .ok _ => isFalse (fun hc => Except.noConfusion hc)

/-- `OrderStatus` enum from `app/models/enums.py`. -/
inductive OrderStatus where
  | pending
  | confirmed
  | preparing
  | ready
  | delivered
  | cancelled
deriving DecidableEq, Repr

/-- The `.value` string of each `OrderStatus` member (`enums.py`). -/
def OrderStatus.value : OrderStatus → String
  | .pending => "pending"
  | .confirmed => "confirmed"
  | .preparing => "preparing"
  | .ready => "ready"
  | .delivered => "delivered"
  | .cancelled => "cancelled"

/-- Python attribute access `OrderStatus.NAME`: `some` for the members
declared in `enums.py`, `none` (an `AttributeError` at the call site) for
any other name. -/
def OrderStatus.member : String → Option OrderStatus
  | "PENDING" => some .pending
  | "CONFIRMED" => some .confirmed
  | "PREPARING" => some .preparing
  | "READY" => some .ready
  | "DELIVERED" => some .delivered
  | "CANCELLED" => some .cancelled
  | _ => none

/-- The enum constructor `OrderStatus(value)`: looks a member up by its
string value, `none` modelling the `ValueError` Python raises. -/
def OrderStatus.ofValue : String → Option OrderStatus
  | "pending" => some .pending
  | "confirmed" => some .confirmed
  | "preparing" => some .preparing
  | "ready" => some .ready
  | "delivered" => some .delivered
  | "cancelled" => some .cancelled
  | _ => none

/-- A row of the `products` table (`app/models/product.py`). -/
structure Product where
  id : String
  created_by : String
  product_name : String
  description : Option String
  price : ℚ
  is_available : Bool
  category_id : String
  min_stock_level : Int
  max_stock_level : Int
  qty_in_stock : Int
  last_restock_date : Option Nat
deriving DecidableEq, Repr

/-- A row of the `categories` table (`app/models/product.py`). -/
structure Category where
  id : String
  name : String
  description : Option String
deriving DecidableEq, Repr

/-- A row of the `orders` table (`app/models/order.py`); `status` is stored
as a string, as in the source. -/
structure Order where
  id : String
  user_id : String
  status : String
  total_amount : ℚ
  shipping_address : Option String
  billing_address : Option String
deriving DecidableEq, Repr

/-- A row of the `order_items` table (`app/models/order.py`). -/
structure OrderItem where
  id : String
  order_id : String
  product_id : String
  quantity : Int
  unit_price : ℚ
deriving DecidableEq, Repr

/-- The database state threaded through the services.  `nextId` is a fresh
identifier source standing in for `uuid4()`. -/
structure DBState where
  products : List Product
  categories : List Category
  orders : List Order
  order_items : List OrderItem
  nextId : Nat
deriving DecidableEq, Repr

/-- `BaseRepository.get_by_id` on the `products` table. -/
def DBState.getProduct (st : DBState) (pid : String) : Option Product :=
  st.products.find? (fun p => p.id == pid)

/-- `BaseRepository.get_by_id` on the `categories` table. -/
def DBState.getCategory (st : DBState) (cid : String) : Option Category :=
  st.categories.find? (fun c => c.id == cid)

/-- `get_by_id` on the `orders` table. -/
def DBState.getOrder (st : DBState) (oid : String) : Option Order :=
  st.orders.find? (fun o => o.id == oid)

/-- `product_repository.update(pid, dict with key qty_in_stock)`. -/
def DBState.setProductQty (st : DBState) (pid : String) (q : Int) : DBState :=
  { st with products :=
      st.products.map (fun p => if p.id == pid then { p with qty_in_stock := q } else p) }

/-- `order_repository.update(oid, dict with key status)`. -/
def DBState.setOrderStatus (st : DBState) (oid : String) (s : String) : DBState :=
  { st with orders :=
      st.orders.map (fun o => if o.id == oid then { o with status := s } else o) }

/-- `order_repository.update(oid, dict with key shipping_address)`. -/
def DBState.setOrderShipping (st : DBState) (oid : String) (a : String) : DBState :=
  { st with orders :=
      st.orders.map (fun o => if o.id == oid then { o with shipping_address := some a } else o) }

/-- `order_repository.update(oid, dict with key billing_address)`. -/
def DBState.setOrderBilling (st : DBState) (oid : String) (a : String) : DBState :=
  { st with orders :=
      st.orders.map (fun o => if o.id == oid then { o with billing_address := some a } else o) }

/-- Pydantic `OrderItemCreate` (`app/schemas/order.py`). -/
structure OrderItemCreate where
  product_id : String
  quantity : Int
deriving DecidableEq, Repr

/-- Pydantic `OrderCreate` (`app/schemas/order.py`).  `total_amount` and
`status` are present in the schema but ignored by `create_order`. -/
structure OrderCreate where
  user_id : String
  total_amount : ℚ
  shipping_address : Option String
  billing_address : Option String
  status : OrderStatus
  items : List OrderItemCreate
deriving DecidableEq, Repr

/-- Pydantic `OrderUpdate` (`app/schemas/order.py`). -/
structure OrderUpdate where
  status : Option OrderStatus
  shipping_address : Option String
  billing_address : Option String
deriving DecidableEq, Repr

/-- One entry of the local `order_items` list built inside
`OrderService.create_order` before the order row exists. -/
structure PendingItem where
  product_id : String
  quantity : Int
  unit_price : ℚ
deriving DecidableEq, Repr

/-- The per-line loop body of `OrderService.create_order`
(`app/services/order_service.py`): look the product up, check
availability and stock, commit the stock decrement, accumulate the line
total and the pending order item.  A raised `ValueError` aborts the loop
but keeps every stock decrement already committed. -/
def processItems : DBState → List OrderItemCreate → ℚ → List PendingItem →
    DBState × Except PyError (ℚ × List PendingItem)
  | st, [], total, acc => (st, .ok (total, acc))
  | st, item :: rest, total, acc =>
    match st.getProduct item.product_id with
    | none =>
        (st, .error (.valueError ("Product with id " ++ item.product_id ++ " not found")))
    | some product =>
        if product.is_available = false then
          (st, .error (.valueError ("Product " ++ product.product_name ++ " is not available")))
        else if product.qty_in_stock < item.quantity then
          (st, .error (.valueError ("Not enough " ++ product.product_name ++ " in stock")))
        else
          let updated_stock := product.qty_in_stock - item.quantity
          let st1 := st.setProductQty product.id updated_stock
          processItems st1 rest (total + product.price * (item.quantity : ℚ))
            (acc ++ [⟨item.product_id, item.quantity, product.price⟩])

/-- The trailing loop of `OrderService.create_order`: one
`order_repository.add_order_item` call per pending item. -/
def addOrderItems : DBState → String → List PendingItem → DBState
  | st, _, [] => st
  | st, oid, it :: rest =>
      addOrderItems
        { st with
          order_items :=
            st.order_items ++ [⟨toString st.nextId, oid, it.product_id, it.quantity, it.unit_price⟩],
          nextId := st.nextId + 1 } oid rest

/-- `OrderService.create_order`: validate and reserve each line, then
persist the order row (status `pending`) and its items. -/
def create_order (st : DBState) (order_data : OrderCreate) : DBState × Except PyError Order :=
  match processItems st order_data.items 0 [] with
  | (st1, .error e) => (st1, .error e)
  | (st1, .ok (total_amount, order_items)) =>
    let oid := toString st1.nextId
    let created : Order :=
      { id := oid, user_id := order_data.user_id, status := OrderStatus.pending.value,
        total_amount := total_amount, shipping_address := order_data.shipping_address,
        billing_address := order_data.billing_address }
    let st2 := { st1 with orders := st1.orders ++ [created], nextId := st1.nextId + 1 }
    let st3 := addOrderItems st2 oid order_items
    (st3, .ok created)

/-- `OrderService.update_order`: only a truthy (non-`None`, non-empty)
shipping or billing address is applied; every other field is left alone. -/
def update_order (st : DBState) (order_id : String) (order_data : OrderUpdate) :
    DBState × Option Order :=
  match st.getOrder order_id with
  | none => (st, none)
  | some _ =>
    let st1 := match order_data.shipping_address with
      | some s => if s == "" then st else st.setOrderShipping order_id s
      | none => st
    let st2 := match order_data.billing_address with
      | some s => if s == "" then st1 else st1.setOrderBilling order_id s
      | none => st1
    (st2, st2.getOrder order_id)

/-- The `valid_transitions` dict literal of
`OrderService._is_valid_status_transition`, as written: attribute names on
`OrderStatus`, per row of the dict. -/
def transitionTableNames : List (String × List String) :=
  [("PENDING", ["PROCESSING", "CANCELLED"]),
   ("PROCESSING", ["SHIPPED", "CANCELLED"]),
   ("SHIPPED", ["DELIVERED", "RETURNED"]),
   ("DELIVERED", ["RETURNED"]),
   ("RETURNED", []),
   ("CANCELLED", [])]

/-- Resolve one attribute name on the `OrderStatus` class; an unknown name
is the `AttributeError` Python raises while evaluating the dict literal. -/
def resolveMember (name : String) : Except PyError OrderStatus :=
  match OrderStatus.member name with
  | some s => .ok s
  | none => .error (.attributeError name)

/-- Evaluate the `valid_transitions` dict literal: every attribute access
in it is resolved, left to right; the first unknown member raises. -/
def validTransitions : Except PyError (List (OrderStatus × List OrderStatus)) :=
  transitionTableNames.mapM (fun row => do
    let k ← resolveMember row.1
    let vs ← row.2.mapM resolveMember
    pure (k, vs))

/-- `OrderService._is_valid_status_transition`: builds the dict (which may
raise) and then tests membership of the requested status in the row of the
current status. -/
def is_valid_status_transition (current_status new_status : OrderStatus) :
    Except PyError Bool := do
  let table ← validTransitions
  pure (decide (new_status ∈ (((table.find? (fun r => r.1 = current_status)).map
    (fun r => r.2)).getD [])))

/-- `OrderService.update_order_status`: parse the stored status string,
validate the transition, and apply it via
`order_repository.update_order_status`. -/
def update_order_status (st : DBState) (order_id : String) (status : OrderStatus) :
    DBState × Except PyError (Option Order) :=
  match st.getOrder order_id with
  | none => (st, .ok none)
  | some o =>
    match OrderStatus.ofValue o.status with
    | none => (st, .error (.valueError ("invalid OrderStatus value " ++ o.status)))
    | some current_status =>
      match is_valid_status_transition current_status status with
      | .error e => (st, .error e)
      | .ok false =>
          (st, .error (.valueError ("Invalid status transition from "
            ++ current_status.value ++ " to " ++ status.value)))
      | .ok true =>
          let st1 := st.setOrderStatus order_id status.value
          (st1, .ok (st1.getOrder order_id))

/-- `OrderService.cancel_order`: only an order whose stored status string
is `pending` or `confirmed` is updated to `cancelled`; anything else
returns `None`.  No stock is touched. -/
def cancel_order (st : DBState) (order_id : String) : DBState × Option Order :=
  match st.getOrder order_id with
  | none => (st, none)
  | some o =>
    if o.status == OrderStatus.pending.value || o.status == OrderStatus.confirmed.value then
      let st1 := st.setOrderStatus order_id OrderStatus.cancelled.value
      (st1, st1.getOrder order_id)
    else
      (st, none)

/-- Domain events published to the event bus (`app/models/product.py`).
`lowStock` carries the product id, the current stock, and the minimum
stock level. -/
inductive DomainEvent where
  | lowStock : String → Int → Int → DomainEvent
  | outOfStock : String → DomainEvent
deriving DecidableEq, Repr

/-- `Product.is_in_stock` (`app/models/product.py`). -/
def Product.is_in_stock (p : Product) : Bool :=
  decide (0 < p.qty_in_stock)

/-- `Product.needs_restock` (`app/models/product.py`). -/
def Product.needs_restock (p : Product) : Bool :=
  decide (p.qty_in_stock ≤ p.min_stock_level)

/-- `Product.update_stock`: apply the (possibly negative) change and
return the events generated by comparing old and new quantities against
the thresholds. -/
def Product.update_stock (p : Product) (quantity_change : Int) :
    Product × List DomainEvent :=
  let old_qty := p.qty_in_stock
  let p1 := { p with qty_in_stock := old_qty + quantity_change }
  let events :=
    (if old_qty > p.min_stock_level ∧ p1.qty_in_stock ≤ p.min_stock_level then
      [DomainEvent.lowStock p.id p1.qty_in_stock p.min_stock_level] else [])
    ++ (if old_qty > 0 ∧ p1.qty_in_stock ≤ 0 then
      [DomainEvent.outOfStock p.id] else [])
  (p1, events)

/-- Pydantic `StockUpdateRequest` (`app/schemas/product.py`); its validator
rejects a zero change. -/
structure StockUpdateRequest where
  quantity_change : Int
deriving DecidableEq, Repr

/-- `product_repository.update(pid, dict with keys qty_in_stock and
last_restock_date)`, as issued by `ProductService.update_stock`. -/
def DBState.setProductQtyRestock (st : DBState) (pid : String) (q : Int)
    (d : Option Nat) : DBState :=
  { st with products :=
      st.products.map (fun p =>
        if p.id == pid then { p with qty_in_stock := q, last_restock_date := d } else p) }

/-- `ProductService.update_stock` (`app/services/product_service.py`):
reject a change that would drive stock negative, otherwise apply it via
the domain model, stamp `last_restock_date` on additions, persist, and
return the product together with the events published to the bus.
`today` stands for `date.today()`. -/
def ProductService.update_stock (st : DBState) (today : Nat) (product_id : String)
    (stock_update : StockUpdateRequest) :
    DBState × Except PyError (Option Product × List DomainEvent) :=
  match st.getProduct product_id with
  | none => (st, .ok (none, []))
  | some product =>
    if product.qty_in_stock + stock_update.quantity_change < 0 then
      (st, .error (.valueError "Cannot reduce stock below zero"))
    else
      let pe := product.update_stock stock_update.quantity_change
      let restock_date :=
        if stock_update.quantity_change > 0 then some today else product.last_restock_date
      let st1 := st.setProductQtyRestock product_id pe.1.qty_in_stock restock_date
      (st1, .ok (st1.getProduct product_id, pe.2))

/-- Pydantic `ProductUpdate` (`app/schemas/product.py`): every field
optional; `none` models a field absent from `dict(exclude_unset=True)`. -/
structure ProductUpdate where
  product_name : Option String
  description : Option String
  price : Option ℚ
  category_id : Option String
  is_available : Option Bool
  min_stock_level : Option Int
  max_stock_level : Option Int
  last_restock_date : Option Nat
  qty_in_stock : Option Int
  created_by : Option String
deriving DecidableEq, Repr

/-- The constraints pydantic enforces on a `ProductUpdate` payload
(`gt=0` on price and stock levels, `ge=0` on quantity, and the
`validate_stock_levels` root validator). -/
def ProductUpdate.Valid (d : ProductUpdate) : Prop :=
  (∀ v ∈ d.price, 0 < v) ∧
  (∀ v ∈ d.min_stock_level, 0 < v) ∧
  (∀ v ∈ d.max_stock_level, 0 < v) ∧
  (∀ v ∈ d.qty_in_stock, 0 ≤ v) ∧
  (∀ a ∈ d.min_stock_level, ∀ b ∈ d.max_stock_level, a < b)

instance (d : ProductUpdate) : Decidable d.Valid := by
  unfold ProductUpdate.Valid; infer_instance

/-- `BaseRepository.update` applied to a product with the keys present in
`product_data.dict(exclude_unset=True)`: one `setattr` per present key. -/
def applyProductUpdate (p : Product) (d : ProductUpdate) : Product :=
  { p with
    product_name := d.product_name.getD p.product_name,
    description := match d.description with | some s => some s | none => p.description,
    price := d.price.getD p.price,
    category_id := d.category_id.getD p.category_id,
    is_available := d.is_available.getD p.is_available,
    min_stock_level := d.min_stock_level.getD p.min_stock_level,
    max_stock_level := d.max_stock_level.getD p.max_stock_level,
    last_restock_date := match d.last_restock_date with | some x => some x | none => p.last_restock_date,
    qty_in_stock := d.qty_in_stock.getD p.qty_in_stock,
    created_by := d.created_by.getD p.created_by }

/-- Replace the stored row of a product wholesale (the net effect of the
repository `setattr` loop plus commit). -/
def DBState.setProduct (st : DBState) (pid : String) (q : Product) : DBState :=
  { st with products := st.products.map (fun p => if p.id == pid then q else p) }

/-- `ProductService.update_product`: category existence check, stock-level
consistency check, then persist.  The post-update event comparison in the
source reads `product.needs_restock` from the same session object that
`BaseRepository.update` just mutated, so both sides of each falling-edge
comparison see the updated row and no event can fire; the embedding keeps
that aliasing. -/
def ProductService.update_product (st : DBState) (product_id : String)
    (product_data : ProductUpdate) :
    DBState × Except PyError (Option Product × List DomainEvent) :=
  match st.getProduct product_id with
  | none => (st, .ok (none, []))
  | some product =>
    let categoryError : Option PyError :=
      match product_data.category_id with
      | some c =>
          if c ≠ "" ∧ c ≠ product.category_id then
            match st.getCategory c with
            | none => some (.valueError ("Category with id " ++ c ++ " not found"))
            | some _ => none
          else none
      | none => none
    match categoryError with
    | some e => (st, .error e)
    | none =>
      if (product_data.min_stock_level.isSome ∨ product_data.max_stock_level.isSome) ∧
          product_data.max_stock_level.getD product.max_stock_level ≤
            product_data.min_stock_level.getD product.min_stock_level then
        (st, .error (.valueError "Maximum stock level must be greater than minimum stock level"))
      else
        let updated_product := applyProductUpdate product product_data
        let st1 := st.setProduct product_id updated_product
        let events :=
          (if updated_product.needs_restock && !updated_product.needs_restock then
            [DomainEvent.lowStock updated_product.id updated_product.qty_in_stock
              updated_product.min_stock_level] else [])
          ++ (if !updated_product.is_in_stock && updated_product.is_in_stock then
            [DomainEvent.outOfStock updated_product.id] else [])
        (st1, .ok (some updated_product, events))

/-! ### Derived notions used in the statements -/

/-- The order items belonging to one order. -/
def itemsOfOrder (st : DBState) (oid : String) : List OrderItem :=
  st.order_items.filter (fun it => it.order_id == oid)

/-- `sum(item.quantity * item.unit_price)` over a list of order items. -/
def itemsTotal (l : List OrderItem) : ℚ :=
  (l.map (fun it => (it.quantity : ℚ) * it.unit_price)).sum

/-- The same sum over the pending items built inside `create_order`. -/
def pendingTotal (l : List PendingItem) : ℚ :=
  (l.map (fun it => (it.quantity : ℚ) * it.unit_price)).sum

/-- The stored price of a product, if it exists. -/
def priceOf (st : DBState) (pid : String) : Option ℚ :=
  (st.getProduct pid).map (fun p => p.price)

/-- The reservation checks of one `create_order` line fail in the given
state: product missing (vacuous case), unavailable, or with insufficient
stock. -/
def lineFails (st : DBState) (l : OrderItemCreate) : Prop :=
  ∀ p ∈ st.getProduct l.product_id, p.is_available = false ∨ p.qty_in_stock < l.quantity

instance (st : DBState) (l : OrderItemCreate) : Decidable (lineFails st l) := by
  unfold lineFails
  infer_instance

/-- Recognize a `lowStock` event. -/
def DomainEvent.isLowStock : DomainEvent → Bool
  | .lowStock _ _ _ => true
  | _ => false

/-- Recognize an `outOfStock` event. -/
def DomainEvent.isOutOfStock : DomainEvent → Bool
  | .outOfStock _ => true
  | _ => false

/-! ### Concrete fixtures -/

/-- Product with price 5 and stock 10. -/
def prodA : Product :=
  { id := "p1", created_by := "u1", product_name := "A", description := none, price := 5,
    is_available := true, category_id := "c1", min_stock_level := 1, max_stock_level := 100,
    qty_in_stock := 10, last_restock_date := none }

/-- Product with price 3 and stock 5. -/
def prodB : Product :=
  { prodA with id := "p2", product_name := "B", price := 3, qty_in_stock := 5 }

/-- Product with `min_stock_level` 5 and stock 6, one unit above the
low-stock threshold. -/
def prodLow : Product :=
  { prodA with id := "p3", product_name := "C", min_stock_level := 5, qty_in_stock := 6 }

def catC : Category := { id := "c1", name := "cat", description := none }

/-- Catalog-only state: two products, no orders. -/
def baseState : DBState :=
  { products := [prodA, prodB], categories := [catC], orders := [], order_items := [], nextId := 100 }

def orderPending : Order :=
  { id := "o1", user_id := "u1", status := "pending", total_amount := 10,
    shipping_address := none, billing_address := none }

/-- A pending order over product `p1`. -/
def statePending : DBState :=
  { products := [prodA], categories := [catC], orders := [orderPending],
    order_items := [⟨"i1", "o1", "p1", 2, 5⟩], nextId := 200 }

/-- The state right after placing an order of 2 units of `p1` (stock 10
dropped to 8). -/
def stateAfterOrder : DBState :=
  { products := [{ prodA with qty_in_stock := 8 }], categories := [catC],
    orders := [orderPending], order_items := [⟨"i1", "o1", "p1", 2, 5⟩], nextId := 200 }

/-- A `preparing` order. -/
def statePreparing : DBState :=
  { statePending with orders := [{ orderPending with status := "preparing" }] }

/-- A `ready` order. -/
def stateReady : DBState :=
  { statePending with orders := [{ orderPending with status := "ready" }] }

/-- The order row produced by placing `requestTwoLinesOk` against
`baseState`. -/
def orderPlacedOk : Order :=
  { id := "100", user_id := "u1", status := "pending", total_amount := 19,
    shipping_address := none, billing_address := none }

/-- The state produced by placing `requestTwoLinesOk` against
`baseState`. -/
def statePlacedOk : DBState :=
  { products := [{ prodA with qty_in_stock := 8 }, { prodB with qty_in_stock := 2 }],
    categories := [catC],
    orders := [orderPlacedOk],
    order_items := [⟨"101", "100", "p1", 2, 5⟩, ⟨"102", "100", "p2", 3, 3⟩],
    nextId := 103 }

/-- State holding only the near-threshold product `p3`. -/
def stateLow : DBState :=
  { products := [prodLow], categories := [catC], orders := [], order_items := [], nextId := 0 }

/-- A two-line request whose second line exceeds the stock of `p2`. -/
def requestTwoLinesFail : OrderCreate :=
  { user_id := "u1", total_amount := 1, shipping_address := none, billing_address := none,
    status := .pending, items := [⟨"p1", 2⟩, ⟨"p2", 7⟩] }

/-- A two-line request that succeeds against `baseState`. -/
def requestTwoLinesOk : OrderCreate :=
  { requestTwoLinesFail with items := [⟨"p1", 2⟩, ⟨"p2", 3⟩] }

/-- A request with no lines at all. -/
def requestEmpty : OrderCreate :=
  { requestTwoLinesFail with items := [] }

/-! ### List and state helper lemmas -/

theorem find_update_products (l : List Product) (pid key : String) (f : Product → Product)
    (hf : ∀ p, (f p).id = p.id) :
    (l.map (fun p => if p.id == pid then f p else p)).find? (fun p => p.id == key)
      = (l.find? (fun p => p.id == key)).map (fun p => if p.id == pid then f p else p) := by
  rw [List.find?_map]
  have hpred : ((fun p : Product => p.id == key) ∘ (fun p => if p.id == pid then f p else p))
      = (fun p : Product => p.id == key) := by
    funext p
    by_cases h : p.id = pid <;> simp [h, hf]
  rw [hpred]

theorem find_update_orders (l : List Order) (oid key : String) (f : Order → Order)
    (hf : ∀ o, (f o).id = o.id) :
    (l.map (fun o => if o.id == oid then f o else o)).find? (fun o => o.id == key)
      = (l.find? (fun o => o.id == key)).map (fun o => if o.id == oid then f o else o) := by
  rw [List.find?_map]
  have hpred : ((fun o : Order => o.id == key) ∘ (fun o => if o.id == oid then f o else o))
      = (fun o : Order => o.id == key) := by
    funext o
    by_cases h : o.id = oid <;> simp [h, hf]
  rw [hpred]

/-- A product found by `getProduct` carries the queried id. -/
theorem getProduct_id {st : DBState} {pid : String} {p : Product}
    (h : st.getProduct pid = some p) : p.id = pid := by
  have := List.find?_some h
  simpa using this

/-- An order found by `getOrder` carries the queried id. -/
theorem getOrder_id {st : DBState} {oid : String} {o : Order}
    (h : st.getOrder oid = some o) : o.id = oid := by
  have := List.find?_some h
  simpa using this

theorem getProduct_setProductQty_self {st : DBState} {pid : String} {p : Product} (q : Int)
    (h : st.getProduct pid = some p) :
    (st.setProductQty pid q).getProduct pid = some { p with qty_in_stock := q } := by
  have hid : p.id = pid := getProduct_id h
  unfold DBState.getProduct DBState.setProductQty
  rw [find_update_products st.products pid pid
    (fun p => { p with qty_in_stock := q }) (fun _ => rfl)]
  unfold DBState.getProduct at h
  rw [h]
  simp [hid]

theorem getOrder_setOrderStatus_self {st : DBState} {oid : String} {o : Order} (s : String)
    (h : st.getOrder oid = some o) :
    (st.setOrderStatus oid s).getOrder oid = some { o with status := s } := by
  have hid : o.id = oid := getOrder_id h
  unfold DBState.getOrder DBState.setOrderStatus
  rw [find_update_orders st.orders oid oid (fun o => { o with status := s }) (fun _ => rfl)]
  unfold DBState.getOrder at h
  rw [h]
  simp [hid]

/-- `setProductQty` touches only the products list. -/
theorem setProductQty_frame (st : DBState) (pid : String) (q : Int) :
    (st.setProductQty pid q).orders = st.orders ∧
    (st.setProductQty pid q).order_items = st.order_items ∧
    (st.setProductQty pid q).categories = st.categories ∧
    (st.setProductQty pid q).nextId = st.nextId :=
  ⟨rfl, rfl, rfl, rfl⟩

/-- `setProductQty` preserves every stored price. -/
theorem priceOf_setProductQty (st : DBState) (pid key : String) (q : Int) :
    priceOf (st.setProductQty pid q) key = priceOf st key := by
  unfold priceOf DBState.getProduct DBState.setProductQty
  rw [find_update_products st.products pid key
    (fun p => { p with qty_in_stock := q }) (fun _ => rfl)]
  cases (st.products.find? (fun p => p.id == key)) with
  | none => rfl
  | some a => by_cases h : a.id = pid <;> simp [h]

/-! ### C1 -/

/-- C1 counterexample: a two-line order whose second line exceeds stock
errors out, but the first line's already-committed stock decrement is not
released: `p1` ends at 8, not its pre-call 10.  No order row is created. -/
theorem C1_counterexample :
    (create_order baseState requestTwoLinesFail).2
        = .error (.valueError "Not enough B in stock") ∧
    ((create_order baseState requestTwoLinesFail).1.getProduct "p1").map Product.qty_in_stock
        = some 8 ∧
    (baseState.getProduct "p1").map Product.qty_in_stock = some 10 ∧
    (create_order baseState requestTwoLinesFail).1.orders = [] :=
  ⟨rfl, rfl, rfl, rfl⟩

/-- C1 (amended): if in a two-line `create_order` call the first line's
reservation succeeds and the second line's reservation fails (product
missing, unavailable, or insufficient stock), the raised error propagates
and no Order or Order Item is created — but the first line's reservation
is NOT released: the post-call state is exactly the state with the first
product's stock already decremented. -/
theorem C1_failed_line_keeps_earlier_decrement (st : DBState) (d : OrderCreate)
    (l1 l2 : OrderItemCreate) (p1 : Product)
    (hitems : d.items = [l1, l2])
    (hp1 : st.getProduct l1.product_id = some p1)
    (hav : p1.is_available = true)
    (hq : l1.quantity ≤ p1.qty_in_stock)
    (hfail : lineFails (st.setProductQty l1.product_id (p1.qty_in_stock - l1.quantity)) l2) :
    (∃ e, create_order st d
        = (st.setProductQty l1.product_id (p1.qty_in_stock - l1.quantity), .error e)) ∧
    ((create_order st d).1.getProduct l1.product_id).map Product.qty_in_stock
        = some (p1.qty_in_stock - l1.quantity) ∧
    (create_order st d).1.orders = st.orders ∧
    (create_order st d).1.order_items = st.order_items := by
  have hid : p1.id = l1.product_id := getProduct_id hp1
  have hstep : processItems st d.items 0 []
      = processItems (st.setProductQty l1.product_id (p1.qty_in_stock - l1.quantity)) [l2]
          (0 + p1.price * (l1.quantity : ℚ)) [⟨l1.product_id, l1.quantity, p1.price⟩] := by
    rw [hitems]
    simp only [processItems, hp1]
    rw [if_neg (by simp [hav]), if_neg (not_lt.mpr hq), hid]
    simp
  have hmain : ∃ e, processItems st d.items 0 []
      = (st.setProductQty l1.product_id (p1.qty_in_stock - l1.quantity), .error e) := by
    rw [hstep]
    cases hget2 : (st.setProductQty l1.product_id
        (p1.qty_in_stock - l1.quantity)).getProduct l2.product_id with
    | none =>
        exact ⟨.valueError ("Product with id " ++ l2.product_id ++ " not found"),
          by simp [processItems, hget2]⟩
    | some p2 =>
        have hfail2 := hfail p2 hget2
        by_cases hav2 : p2.is_available = false
        · exact ⟨.valueError ("Product " ++ p2.product_name ++ " is not available"),
            by simp [processItems, hget2, hav2]⟩
        · have hlt : p2.qty_in_stock < l2.quantity := by
            rcases hfail2 with h | h
            · exact absurd h hav2
            · exact h
          exact ⟨.valueError ("Not enough " ++ p2.product_name ++ " in stock"),
            by simp [processItems, hget2, hav2, hlt]⟩
  obtain ⟨e, he⟩ := hmain
  have hco : create_order st d
      = (st.setProductQty l1.product_id (p1.qty_in_stock - l1.quantity), .error e) := by
    unfold create_order
    rw [he]
  refine ⟨⟨e, hco⟩, ?_, ?_, ?_⟩
  · rw [hco]
    rw [getProduct_setProductQty_self (p1.qty_in_stock - l1.quantity) hp1]
    rfl
  · rw [hco]
    rfl
  · rw [hco]
    rfl

/-- C1 witness: the amended statement at the concrete two-line failing
request against `baseState`. -/
theorem C1_witness :
    (∃ e, create_order baseState requestTwoLinesFail
        = (baseState.setProductQty "p1" (prodA.qty_in_stock - 2), .error e)) ∧
    ((create_order baseState requestTwoLinesFail).1.getProduct "p1").map Product.qty_in_stock
        = some (prodA.qty_in_stock - 2) ∧
    (create_order baseState requestTwoLinesFail).1.orders = baseState.orders ∧
    (create_order baseState requestTwoLinesFail).1.order_items = baseState.order_items :=
  C1_failed_line_keeps_earlier_decrement baseState requestTwoLinesFail ⟨"p1", 2⟩ ⟨"p2", 7⟩
    prodA rfl rfl rfl (by decide) (by decide)

/-! ### C2 -/

/-- C2: the claimed transition behavior cannot occur: `update_order_status`
on a `pending` order requesting `CONFIRMED` raises `AttributeError`
(`PROCESSING` is not a member of `OrderStatus`) and mutates nothing,
because evaluating the `valid_transitions` dict literal already raises. -/
theorem C2_update_order_status_raises_attribute_error :
    update_order_status statePending "o1" OrderStatus.confirmed
      = (statePending, .error (.attributeError "PROCESSING")) ∧
    validTransitions = .error (.attributeError "PROCESSING") :=
  ⟨rfl, rfl⟩

/-! ### C4 -/

/-- C4 counterexample: cancelling the pending order placed for 2 units of
`p1` (stock already at 8) leaves stock at 8, not 10 as claimed, while the
status does become `cancelled`. -/
theorem C4_counterexample :
    ((cancel_order stateAfterOrder "o1").1.getProduct "p1").map Product.qty_in_stock
        = some 8 ∧
    ((cancel_order stateAfterOrder "o1").1.getProduct "p1").map Product.qty_in_stock
        ≠ some 10 ∧
    ((cancel_order stateAfterOrder "o1").1.getOrder "o1").map Order.status
        = some "cancelled" := by
  refine ⟨rfl, by decide, rfl⟩

/-- C4 (amended): `cancel_order` on a `pending` or `confirmed` order sets
its status to `cancelled` and returns it, but releases no inventory: the
products table is bit-for-bit unchanged. -/
theorem C4_cancel_sets_cancelled_but_keeps_stock (st : DBState) (oid : String) (o : Order)
    (hget : st.getOrder oid = some o)
    (hst : o.status = "pending" ∨ o.status = "confirmed") :
    (cancel_order st oid).1.products = st.products ∧
    (cancel_order st oid).2 = some { o with status := "cancelled" } ∧
    ((cancel_order st oid).1.getOrder oid).map Order.status = some "cancelled" := by
  have hcond : (o.status == "pending" || o.status == "confirmed") = true := by
    rcases hst with h | h <;> simp [h]
  have hres := getOrder_setOrderStatus_self "cancelled" hget
  have hcancel : cancel_order st oid
      = (st.setOrderStatus oid "cancelled",
        (st.setOrderStatus oid "cancelled").getOrder oid) := by
    simp [cancel_order, hget, OrderStatus.value, hcond]
  rw [hcancel]
  refine ⟨rfl, hres, ?_⟩
  rw [hres]
  rfl

/-- C4 witness: the amended statement at the concrete post-placement
state. -/
theorem C4_witness :
    (cancel_order stateAfterOrder "o1").1.products = stateAfterOrder.products ∧
    (cancel_order stateAfterOrder "o1").2 = some { orderPending with status := "cancelled" } ∧
    ((cancel_order stateAfterOrder "o1").1.getOrder "o1").map Order.status
        = some "cancelled" :=
  C4_cancel_sets_cancelled_but_keeps_stock stateAfterOrder "o1" orderPending rfl (Or.inl rfl)

/-! ### C6 -/

/-- C6 counterexample: `create_order` with an empty item list does not
fail; it returns a created order with `total_amount` 0 and adds exactly
one order row. -/
theorem C6_counterexample :
    (create_order baseState requestEmpty).2
        = .ok { id := "100", user_id := "u1", status := "pending", total_amount := 0,
                shipping_address := none, billing_address := none } ∧
    (create_order baseState requestEmpty).1.orders.length = 1 :=
  ⟨rfl, rfl⟩

/-- C6 (amended): `create_order` with an empty item list succeeds for any
state, persisting an order with `total_amount` 0, status `pending` and no
order items; there is no `EmptyOrder` rejection. -/
theorem C6_empty_order_accepted (st : DBState) (d : OrderCreate) (h : d.items = []) :
    create_order st d =
      ({ st with
          orders := st.orders ++
            [{ id := toString st.nextId, user_id := d.user_id, status := "pending",
               total_amount := 0, shipping_address := d.shipping_address,
               billing_address := d.billing_address }],
          nextId := st.nextId + 1 },
        .ok { id := toString st.nextId, user_id := d.user_id, status := "pending",
              total_amount := 0, shipping_address := d.shipping_address,
              billing_address := d.billing_address }) := by
  simp [create_order, h, processItems, addOrderItems, OrderStatus.value]

/-- C6 witness: the amended statement at the concrete empty request. -/
theorem C6_witness :
    create_order baseState requestEmpty =
      ({ baseState with
          orders := baseState.orders ++
            [{ id := toString baseState.nextId, user_id := requestEmpty.user_id,
               status := "pending", total_amount := 0,
               shipping_address := requestEmpty.shipping_address,
               billing_address := requestEmpty.billing_address }],
          nextId := baseState.nextId + 1 },
        .ok { id := toString baseState.nextId, user_id := requestEmpty.user_id,
              status := "pending", total_amount := 0,
              shipping_address := requestEmpty.shipping_address,
              billing_address := requestEmpty.billing_address }) :=
  C6_empty_order_accepted baseState requestEmpty rfl

/-! ### C7 -/

/-- C7 counterexample: cancelling a `preparing` order raises no
illegal-transition error; it returns `none` with the state unchanged. -/
theorem C7_counterexample :
    cancel_order statePreparing "o1" = (statePreparing, none) :=
  rfl

/-- C7 (amended): cancellation is permitted only from `pending` or
`confirmed`; on any other stored status `cancel_order` returns `none` and
leaves the entire state unchanged — it raises no error. -/
theorem C7_cancel_late_returns_none (st : DBState) (oid : String) (o : Order)
    (hget : st.getOrder oid = some o)
    (hp : o.status ≠ "pending") (hc : o.status ≠ "confirmed") :
    cancel_order st oid = (st, none) := by
  simp [cancel_order, hget, OrderStatus.value, hp, hc]

/-- C7 witness: the amended statement on a `ready` order. -/
theorem C7_witness :
    cancel_order stateReady "o1" = (stateReady, none) :=
  C7_cancel_late_returns_none stateReady "o1" { orderPending with status := "ready" } rfl
    (by decide) (by decide)

/-! ### C8 -/

/-- C8: threshold events are edge-triggered.  A successful
`ProductService.update_stock` emits exactly one `LowStockEvent` when the
quantity crosses from above `min_stock_level` to at-or-below it, exactly
one `OutOfStockEvent` when it crosses from above zero to at-or-below zero,
and no event otherwise — in particular none, when the pre-state was
already at-or-below the threshold. -/
theorem C8_stock_events_edge_triggered (st : DBState) (today : Nat) (pid : String)
    (req : StockUpdateRequest) (p : Product)
    (hget : st.getProduct pid = some p)
    (hnn : 0 ≤ p.qty_in_stock + req.quantity_change) :
    ∃ st1 res events,
      ProductService.update_stock st today pid req = (st1, .ok (res, events)) ∧
      events.countP DomainEvent.isLowStock
        = (if p.min_stock_level < p.qty_in_stock ∧
            p.qty_in_stock + req.quantity_change ≤ p.min_stock_level then 1 else 0) ∧
      events.countP DomainEvent.isOutOfStock
        = (if 0 < p.qty_in_stock ∧ p.qty_in_stock + req.quantity_change ≤ 0
            then 1 else 0) := by
  have hneg : ¬ (p.qty_in_stock + req.quantity_change < 0) := not_lt.mpr hnn
  refine ⟨st.setProductQtyRestock pid (p.update_stock req.quantity_change).1.qty_in_stock
      (if req.quantity_change > 0 then some today else p.last_restock_date),
    (st.setProductQtyRestock pid (p.update_stock req.quantity_change).1.qty_in_stock
      (if req.quantity_change > 0 then some today else p.last_restock_date)).getProduct pid,
    (p.update_stock req.quantity_change).2, ?_, ?_, ?_⟩
  · simp only [ProductService.update_stock, hget]
    rw [if_neg hneg]
  · unfold Product.update_stock
    by_cases h1 : p.min_stock_level < p.qty_in_stock ∧
        p.qty_in_stock + req.quantity_change ≤ p.min_stock_level
      <;> by_cases h2 : 0 < p.qty_in_stock ∧ p.qty_in_stock + req.quantity_change ≤ 0
      <;> simp [h1, h2, DomainEvent.isLowStock, DomainEvent.isOutOfStock]
  · unfold Product.update_stock
    by_cases h1 : p.min_stock_level < p.qty_in_stock ∧
        p.qty_in_stock + req.quantity_change ≤ p.min_stock_level
      <;> by_cases h2 : 0 < p.qty_in_stock ∧ p.qty_in_stock + req.quantity_change ≤ 0
      <;> simp [h1, h2, DomainEvent.isLowStock, DomainEvent.isOutOfStock]

/-- C8 witness: reserving 2 units of the product with stock 6 and
`min_stock_level` 5 emits exactly one `LowStockEvent` and no
`OutOfStockEvent`. -/
theorem C8_witness :
    ∃ st1 res events,
      ProductService.update_stock stateLow 7 "p3" ⟨-2⟩ = (st1, .ok (res, events)) ∧
      events.countP DomainEvent.isLowStock
        = (if prodLow.min_stock_level < prodLow.qty_in_stock ∧
            prodLow.qty_in_stock + (-2) ≤ prodLow.min_stock_level then 1 else 0) ∧
      events.countP DomainEvent.isOutOfStock
        = (if 0 < prodLow.qty_in_stock ∧ prodLow.qty_in_stock + (-2) ≤ 0
            then 1 else 0) :=
  C8_stock_events_edge_triggered stateLow 7 "p3" ⟨-2⟩ prodLow rfl (by decide)

/-! ### C9 -/

/-- The line loop of `create_order` keeps every stored stock quantity
non-negative: a decrement is only committed after the
`qty_in_stock < quantity` check. -/
theorem processItems_nonneg : ∀ (items : List OrderItemCreate) (st : DBState) (total : ℚ)
    (acc : List PendingItem),
    (∀ p ∈ st.products, 0 ≤ p.qty_in_stock) →
    ∀ p ∈ (processItems st items total acc).1.products, 0 ≤ p.qty_in_stock := by
  intro items
  induction items with
  | nil =>
    intro st total acc h
    simpa [processItems] using h
  | cons item rest ih =>
    intro st total acc h
    cases hget : st.getProduct item.product_id with
    | none => simpa [processItems, hget] using h
    | some product =>
      by_cases hav : product.is_available = false
      · simpa [processItems, hget, hav] using h
      · by_cases hlt : product.qty_in_stock < item.quantity
        · simpa [processItems, hget, hav, hlt] using h
        · have hrec : (processItems st (item :: rest) total acc).1
              = (processItems (st.setProductQty product.id
                  (product.qty_in_stock - item.quantity)) rest
                  (total + product.price * (item.quantity : ℚ))
                  (acc ++ [⟨item.product_id, item.quantity, product.price⟩])).1 := by
            simp [processItems, hget, hav, hlt]
          rw [hrec]
          apply ih
          intro q hq
          simp only [DBState.setProductQty, List.mem_map] at hq
          obtain ⟨q0, hq0, hq0eq⟩ := hq
          by_cases hid : (q0.id == product.id)
          · rw [if_pos hid] at hq0eq
            rw [← hq0eq]
            simp
            omega
          · rw [if_neg hid] at hq0eq
            rw [← hq0eq]
            exact h q0 hq0

/-- `addOrderItems` never touches the products table. -/
theorem addOrderItems_products : ∀ (pend : List PendingItem) (st : DBState) (oid : String),
    (addOrderItems st oid pend).products = st.products := by
  intro pend
  induction pend with
  | nil => intro st oid; rfl
  | cons a t ih => intro st oid; simp [addOrderItems, ih]

/-- C9: the service boundary preserves the product invariants.
`ProductService.update_stock` fails with state unchanged when the change
would make the quantity negative; `ProductService.update_product` fails
with state unchanged when the resulting maximum stock level would not
exceed the resulting minimum, and on success a schema-valid update keeps
`min < max` and `0 ≤ qty`; `create_order` (on any outcome) keeps every
stored quantity non-negative. -/
theorem C9_service_boundary_preserves_invariants :
    (∀ (st : DBState) (today : Nat) (pid : String) (req : StockUpdateRequest)
        (p : Product), st.getProduct pid = some p →
        p.qty_in_stock + req.quantity_change < 0 →
        ProductService.update_stock st today pid req
          = (st, .error (.valueError "Cannot reduce stock below zero"))) ∧
    (∀ (st : DBState) (pid : String) (d : ProductUpdate) (p : Product),
        st.getProduct pid = some p →
        (d.min_stock_level.isSome ∨ d.max_stock_level.isSome) →
        d.max_stock_level.getD p.max_stock_level
          ≤ d.min_stock_level.getD p.min_stock_level →
        ∃ e, ProductService.update_product st pid d = (st, .error e)) ∧
    (∀ (st st1 : DBState) (pid : String) (d : ProductUpdate) (p u : Product)
        (ev : List DomainEvent), st.getProduct pid = some p →
        d.Valid → p.min_stock_level < p.max_stock_level → 0 ≤ p.qty_in_stock →
        ProductService.update_product st pid d = (st1, .ok (some u, ev)) →
        u.min_stock_level < u.max_stock_level ∧ 0 ≤ u.qty_in_stock) ∧
    (∀ (st : DBState) (dreq : OrderCreate),
        (∀ p ∈ st.products, 0 ≤ p.qty_in_stock) →
        ∀ p ∈ (create_order st dreq).1.products, 0 ≤ p.qty_in_stock) := by
  refine ⟨?_, ?_, ?_, ?_⟩
  · intro st today pid req p hget hneg
    simp only [ProductService.update_stock, hget]
    rw [if_pos hneg]
  · intro st pid d p hget hsome hle
    simp only [ProductService.update_product, hget]
    split
    · exact ⟨_, rfl⟩
    · rw [if_pos ⟨hsome, hle⟩]
      exact ⟨_, rfl⟩
  · intro st st1 pid d p u ev hget hvalid hminmax hqty hrun
    simp only [ProductService.update_product, hget] at hrun
    split at hrun
    · exact absurd (congrArg Prod.snd hrun).symm (by simp)
    · split at hrun
      · exact absurd (congrArg Prod.snd hrun).symm (by simp)
      · rename_i hguard
        have hu : u = applyProductUpdate p d := by
          have := congrArg Prod.snd hrun
          simp at this
          exact this.1.symm
        obtain ⟨hvp, hvmin, hvmax, hvqty, hvboth⟩ := hvalid
        subst hu
        constructor
        · cases hmin : d.min_stock_level with
          | some a =>
            cases hmax : d.max_stock_level with
            | some b =>
                simpa [applyProductUpdate, hmin, hmax] using hvboth a hmin b hmax
            | none =>
                have : ¬ (p.max_stock_level ≤ a) := by
                  intro hc
                  exact hguard (by simp [hmin, hmax, hc])
                simpa [applyProductUpdate, hmin, hmax] using not_le.mp this
          | none =>
            cases hmax : d.max_stock_level with
            | some b =>
                have : ¬ (b ≤ p.min_stock_level) := by
                  intro hc
                  exact hguard (by simp [hmin, hmax, hc])
                simpa [applyProductUpdate, hmin, hmax] using not_le.mp this
            | none =>
                simpa [applyProductUpdate, hmin, hmax] using hminmax
        · cases hq : d.qty_in_stock with
          | some v => simpa [applyProductUpdate, hq] using hvqty v hq
          | none => simpa [applyProductUpdate, hq] using hqty
  · intro st dreq hinv
    have h1 := processItems_nonneg dreq.items st 0 [] hinv
    unfold create_order
    cases hrun : processItems st dreq.items 0 [] with
    | mk st1 r =>
      rw [hrun] at h1
      cases r with
      | error e => simpa using h1
      | ok pair =>
        cases pair with
        | mk total its =>
          simp only []
          rw [addOrderItems_products]
          simpa using h1

/-- C9 witness: the four parts at concrete inputs — an 11-unit decrement
of stock 10 is rejected with the state unchanged, an update with
`max_stock_level` 20 and `min_stock_level` 50 is rejected with the state
unchanged, a no-op update keeps `min < max` and `0 ≤ qty`, and a
successful two-line order keeps all stock non-negative. -/
theorem C9_witness :
    ProductService.update_stock baseState 7 "p1" ⟨-11⟩
        = (baseState, .error (.valueError "Cannot reduce stock below zero")) ∧
    (∃ e, ProductService.update_product baseState "p1"
        ⟨none, none, none, none, none, some 50, some 20, none, none, none⟩
        = (baseState, .error e)) ∧
    (prodA.min_stock_level < prodA.max_stock_level ∧ 0 ≤ prodA.qty_in_stock) ∧
    (∀ p ∈ (create_order baseState requestTwoLinesOk).1.products, 0 ≤ p.qty_in_stock) :=
  ⟨C9_service_boundary_preserves_invariants.1 baseState 7 "p1" ⟨-11⟩ prodA rfl (by decide),
   C9_service_boundary_preserves_invariants.2.1 baseState "p1"
     ⟨none, none, none, none, none, some 50, some 20, none, none, none⟩ prodA rfl
     (Or.inl rfl) (by decide),
   C9_service_boundary_preserves_invariants.2.2.1 baseState (baseState.setProduct "p1" prodA)
     "p1" ⟨none, none, none, none, none, none, none, none, none, none⟩ prodA prodA [] rfl
     (by decide) (by decide) (by decide) rfl,
   C9_service_boundary_preserves_invariants.2.2.2 baseState requestTwoLinesOk (by decide)⟩

/-! ### C10 -/

/-- The per-order effect claimed for `update_order`: at most the two
address fields change, and only when the supplied value is truthy
(non-`None` and non-empty); `id`, `user_id`, `status` and `total_amount`
are untouched by construction. -/
def addressOnlyUpdate (d : OrderUpdate) (x : Order) : Order :=
  { x with
    shipping_address := match d.shipping_address with
      | some s => if s == "" then x.shipping_address else some s
      | none => x.shipping_address,
    billing_address := match d.billing_address with
      | some s => if s == "" then x.billing_address else some s
      | none => x.billing_address }

/-- C10: on an existing order, `update_order` is exactly the
address-only update: the rest of the state (products, items, other
orders) and every non-address field of the order — in particular a
`status` carried in the payload — are unchanged, and `None` or `""`
addresses are not applied. -/
theorem C10_update_order_touches_only_addresses (st : DBState) (oid : String)
    (d : OrderUpdate) (o : Order) (hget : st.getOrder oid = some o) :
    update_order st oid d
      = ({ st with orders := st.orders.map (fun x =>
            if x.id == oid then addressOnlyUpdate d x else x) },
        ({ st with orders := st.orders.map (fun x =>
            if x.id == oid then addressOnlyUpdate d x else x) } : DBState).getOrder oid) := by
  obtain ⟨dst, dship, dbill⟩ := d
  have hstate : (update_order st oid ⟨dst, dship, dbill⟩).1
      = { st with orders := st.orders.map (fun x =>
          if x.id == oid then addressOnlyUpdate ⟨dst, dship, dbill⟩ x else x) } := by
    rcases dship with _ | s <;> rcases dbill with _ | t
    · simp only [update_order, hget]
      have hfun : (fun x : Order =>
          if x.id == oid then addressOnlyUpdate ⟨dst, none, none⟩ x else x) = fun x => x := by
        funext x
        by_cases h : (x.id == oid) <;> simp [h, addressOnlyUpdate]
      rw [hfun, List.map_id']
    · simp only [update_order, hget]
      by_cases ht : (t == "")
      · have hfun : (fun x : Order =>
            if x.id == oid then addressOnlyUpdate ⟨dst, none, some t⟩ x else x) = fun x => x := by
          funext x
          by_cases h : (x.id == oid) <;> simp [h, addressOnlyUpdate, ht]
        rw [if_pos ht, hfun, List.map_id']
      · have hfun : (fun x : Order => if x.id == oid then { x with billing_address := some t } else x)
            = fun x => if x.id == oid then addressOnlyUpdate ⟨dst, none, some t⟩ x else x := by
          funext x
          by_cases h : (x.id == oid) <;> simp [h, addressOnlyUpdate, ht]
        rw [if_neg ht]
        simp only [DBState.setOrderBilling]
        rw [hfun]
    · simp only [update_order, hget]
      by_cases hs : (s == "")
      · have hfun : (fun x : Order =>
            if x.id == oid then addressOnlyUpdate ⟨dst, some s, none⟩ x else x) = fun x => x := by
          funext x
          by_cases h : (x.id == oid) <;> simp [h, addressOnlyUpdate, hs]
        rw [if_pos hs, hfun, List.map_id']
      · have hfun : (fun x : Order => if x.id == oid then { x with shipping_address := some s } else x)
            = fun x => if x.id == oid then addressOnlyUpdate ⟨dst, some s, none⟩ x else x := by
          funext x
          by_cases h : (x.id == oid) <;> simp [h, addressOnlyUpdate, hs]
        rw [if_neg hs]
        simp only [DBState.setOrderShipping]
        rw [hfun]
    · simp only [update_order, hget]
      by_cases hs : (s == "") <;> by_cases ht : (t == "")
      · have hfun : (fun x : Order =>
            if x.id == oid then addressOnlyUpdate ⟨dst, some s, some t⟩ x else x) = fun x => x := by
          funext x
          by_cases h : (x.id == oid) <;> simp [h, addressOnlyUpdate, hs, ht]
        rw [if_pos hs, if_pos ht, hfun, List.map_id']
      · have hfun : (fun x : Order => if x.id == oid then { x with billing_address := some t } else x)
            = fun x => if x.id == oid then addressOnlyUpdate ⟨dst, some s, some t⟩ x else x := by
          funext x
          by_cases h : (x.id == oid) <;> simp [h, addressOnlyUpdate, hs, ht]
        rw [if_pos hs, if_neg ht]
        simp only [DBState.setOrderBilling]
        rw [hfun]
      · have hfun : (fun x : Order => if x.id == oid then { x with shipping_address := some s } else x)
            = fun x => if x.id == oid then addressOnlyUpdate ⟨dst, some s, some t⟩ x else x := by
          funext x
          by_cases h : (x.id == oid) <;> simp [h, addressOnlyUpdate, hs, ht]
        rw [if_neg hs, if_pos ht]
        simp only [DBState.setOrderShipping]
        rw [hfun]
      · have hfun : ((fun x : Order => if x.id == oid then { x with billing_address := some t } else x)
            ∘ (fun x : Order => if x.id == oid then { x with shipping_address := some s } else x))
            = fun x => if x.id == oid then addressOnlyUpdate ⟨dst, some s, some t⟩ x else x := by
          funext x
          by_cases h : (x.id == oid) <;> simp [Function.comp, h, addressOnlyUpdate, hs, ht]
        rw [if_neg hs, if_neg ht]
        simp only [DBState.setOrderShipping, DBState.setOrderBilling, List.map_map]
        rw [hfun]
  have hsnd : (update_order st oid ⟨dst, dship, dbill⟩).2
      = (update_order st oid ⟨dst, dship, dbill⟩).1.getOrder oid := by
    simp only [update_order, hget]
  calc update_order st oid ⟨dst, dship, dbill⟩
      = ((update_order st oid ⟨dst, dship, dbill⟩).1,
          (update_order st oid ⟨dst, dship, dbill⟩).2) := rfl
    _ = _ := by rw [hsnd, hstate]

/-- C10 witness: an update payload carrying a status, a non-empty
shipping address and an empty billing address results in exactly the
address-only update of the stored pending order. -/
theorem C10_witness :
    update_order statePending "o1" ⟨some OrderStatus.delivered, some "addr", some ""⟩
      = ({ statePending with orders := statePending.orders.map (fun x =>
            if x.id == "o1" then
              addressOnlyUpdate ⟨some OrderStatus.delivered, some "addr", some ""⟩ x
            else x) },
        ({ statePending with orders := statePending.orders.map (fun x =>
            if x.id == "o1" then
              addressOnlyUpdate ⟨some OrderStatus.delivered, some "addr", some ""⟩ x
            else x) } : DBState).getOrder "o1") :=
  C10_update_order_touches_only_addresses statePending "o1"
    ⟨some OrderStatus.delivered, some "addr", some ""⟩ orderPending rfl

/-! ### C3 -/

/-- Specification of a successful line loop: it extends the accumulator
with new pending items whose unit prices are the pre-call stored prices,
adds their line totals to the running total, and touches nothing but
product quantities. -/
theorem processItems_ok_spec : ∀ (items : List OrderItemCreate) (st : DBState) (total : ℚ)
    (acc : List PendingItem) (st1 : DBState) (t1 : ℚ) (acc1 : List PendingItem),
    processItems st items total acc = (st1, .ok (t1, acc1)) →
    (∃ newItems, acc1 = acc ++ newItems ∧ t1 = total + pendingTotal newItems ∧
      ∀ it ∈ newItems, priceOf st it.product_id = some it.unit_price) ∧
    st1.orders = st.orders ∧ st1.order_items = st.order_items ∧
    st1.categories = st.categories ∧ st1.nextId = st.nextId := by
  intro items
  induction items with
  | nil =>
    intro st total acc st1 t1 acc1 h
    simp only [processItems, Prod.mk.injEq] at h
    obtain ⟨hst, hok⟩ := h
    have hok2 : total = t1 ∧ acc = acc1 := by
      have := congrArg (fun x : Except PyError (ℚ × List PendingItem) =>
        match x with
        | .ok p => p
        | .error _ => (total, acc)) hok
      simpa using this
    refine ⟨⟨[], ?_, ?_, by simp⟩, by rw [← hst], by rw [← hst], by rw [← hst], by rw [← hst]⟩
    · simp [← hok2.2]
    · simp [pendingTotal, ← hok2.1]
  | cons item rest ih =>
    intro st total acc st1 t1 acc1 h
    cases hget : st.getProduct item.product_id with
    | none => simp [processItems, hget] at h
    | some product =>
      by_cases hav : product.is_available = false
      · simp [processItems, hget, hav] at h
      · by_cases hlt : product.qty_in_stock < item.quantity
        · simp [processItems, hget, hav, hlt] at h
        · have hrec : processItems st (item :: rest) total acc
              = processItems (st.setProductQty product.id
                  (product.qty_in_stock - item.quantity)) rest
                  (total + product.price * (item.quantity : ℚ))
                  (acc ++ [⟨item.product_id, item.quantity, product.price⟩]) := by
            simp [processItems, hget, hav, hlt]
          rw [hrec] at h
          obtain ⟨⟨newItems, hacc, ht, hprice⟩, ho, hoi, hc, hn⟩ := ih _ _ _ _ _ _ h
          refine ⟨⟨⟨item.product_id, item.quantity, product.price⟩ :: newItems, ?_, ?_, ?_⟩,
            ho, hoi, hc, hn⟩
          · rw [hacc, List.append_assoc]
            rfl
          · rw [ht]
            simp [pendingTotal]
            ring
          · intro it hit
            rcases List.mem_cons.mp hit with hiteq | hitmem
            · rw [hiteq]
              simp [priceOf, hget]
            · rw [← priceOf_setProductQty st product.id it.product_id
                (product.qty_in_stock - item.quantity)]
              exact hprice it hitmem

/-- `addOrderItems` never touches the orders table. -/
theorem addOrderItems_orders : ∀ (pend : List PendingItem) (st : DBState) (oid : String),
    (addOrderItems st oid pend).orders = st.orders := by
  intro pend
  induction pend with
  | nil => intro st oid; rfl
  | cons a t ih => intro st oid; simp [addOrderItems, ih]

/-- Appending the pending items of an order adds exactly their line totals
to that order's item total. -/
theorem addOrderItems_itemsTotal : ∀ (pend : List PendingItem) (st : DBState) (oid : String),
    itemsTotal (itemsOfOrder (addOrderItems st oid pend) oid)
      = itemsTotal (itemsOfOrder st oid) + pendingTotal pend := by
  intro pend
  induction pend with
  | nil => intro st oid; simp [addOrderItems, pendingTotal]
  | cons pd rest ih =>
    intro st oid
    rw [addOrderItems, ih]
    simp [itemsOfOrder, itemsTotal, pendingTotal, List.filter_append]
    ring

/-- Every item of the order after `addOrderItems` is either a pre-existing
item of that order or carries the data of one of the pending items. -/
theorem addOrderItems_mem : ∀ (pend : List PendingItem) (st : DBState) (oid : String),
    ∀ it ∈ itemsOfOrder (addOrderItems st oid pend) oid,
      it ∈ itemsOfOrder st oid ∨
      ∃ pd ∈ pend, it.product_id = pd.product_id ∧ it.unit_price = pd.unit_price ∧
        it.quantity = pd.quantity := by
  intro pend
  induction pend with
  | nil =>
    intro st oid it hit
    exact Or.inl hit
  | cons pd rest ih =>
    intro st oid it hit
    rw [addOrderItems] at hit
    rcases ih _ _ it hit with hmem | ⟨pd2, hpd2, hprops⟩
    · simp only [itemsOfOrder, List.filter_append] at hmem
      rcases List.mem_append.mp hmem with horig | hnew
      · exact Or.inl horig
      · refine Or.inr ⟨pd, List.mem_cons_self pd rest, ?_⟩
        have : it = (⟨toString st.nextId, oid, pd.product_id, pd.quantity, pd.unit_price⟩ :
            OrderItem) := by
          simpa using List.mem_filter.mp hnew |>.1
        rw [this]
        exact ⟨rfl, rfl, rfl⟩
    · exact Or.inr ⟨pd2, List.mem_cons_of_mem pd hpd2, hprops⟩

/-- `ProductService.update_product` never touches orders or order items. -/
theorem update_product_frame (st : DBState) (pid : String) (d : ProductUpdate) :
    (ProductService.update_product st pid d).1.orders = st.orders ∧
    (ProductService.update_product st pid d).1.order_items = st.order_items := by
  unfold ProductService.update_product
  cases st.getProduct pid with
  | none => exact ⟨rfl, rfl⟩
  | some p =>
    repeat' split
    all_goals exact ⟨rfl, rfl⟩

/-- `ProductService.update_stock` never touches orders or order items. -/
theorem update_stock_frame (st : DBState) (today : Nat) (pid : String)
    (req : StockUpdateRequest) :
    (ProductService.update_stock st today pid req).1.orders = st.orders ∧
    (ProductService.update_stock st today pid req).1.order_items = st.order_items := by
  unfold ProductService.update_stock
  cases st.getProduct pid with
  | none => exact ⟨rfl, rfl⟩
  | some p =>
    repeat' split
    all_goals exact ⟨rfl, rfl⟩

/-- C3: for a successfully placed order, the stored `total_amount` equals
the sum of `quantity * unit_price` over the order's items; each item's
`unit_price` is the product's stored price at placement time; and no later
product mutation (price update or stock update) touches the order rows or
the item rows, so the captured values are never recomputed. -/
theorem C3_total_equals_item_sum (st st1 : DBState) (d : OrderCreate) (o : Order)
    (hfresh : ∀ it ∈ st.order_items, it.order_id ≠ toString st.nextId)
    (h : create_order st d = (st1, .ok o)) :
    o.total_amount = itemsTotal (itemsOfOrder st1 o.id) ∧
    (∀ it ∈ itemsOfOrder st1 o.id, priceOf st it.product_id = some it.unit_price) ∧
    (∀ (pid : String) (upd : ProductUpdate),
        (ProductService.update_product st1 pid upd).1.orders = st1.orders ∧
        (ProductService.update_product st1 pid upd).1.order_items = st1.order_items) ∧
    (∀ (today : Nat) (pid : String) (req : StockUpdateRequest),
        (ProductService.update_stock st1 today pid req).1.orders = st1.orders ∧
        (ProductService.update_stock st1 today pid req).1.order_items = st1.order_items) := by
  unfold create_order at h
  cases hrun : processItems st d.items 0 [] with
  | mk stA r =>
    rw [hrun] at h
    cases r with
    | error e => exact absurd (congrArg Prod.snd h) (by simp)
    | ok pair =>
      obtain ⟨total, pend⟩ := pair
      obtain ⟨⟨newItems, hacc, ht, hprice⟩, horders, hitems, hcats, hnext⟩ :=
        processItems_ok_spec d.items st 0 [] stA total pend hrun
      have hpend : pend = newItems := by simpa using hacc
      subst hpend
      have h2 : (addOrderItems
          { stA with
            orders := stA.orders ++
              [{ id := toString stA.nextId, user_id := d.user_id,
                 status := OrderStatus.pending.value, total_amount := total,
                 shipping_address := d.shipping_address,
                 billing_address := d.billing_address }],
            nextId := stA.nextId + 1 } (toString stA.nextId) pend,
          (Except.ok { id := toString stA.nextId, user_id := d.user_id,
                       status := OrderStatus.pending.value, total_amount := total,
                       shipping_address := d.shipping_address,
                       billing_address := d.billing_address } : Except PyError Order))
          = (st1, .ok o) := h
      injection h2 with hst1 hok
      injection hok with ho
      subst hst1
      subst ho
      have hfilter : itemsOfOrder
          { stA with
            orders := stA.orders ++
              [{ id := toString stA.nextId, user_id := d.user_id,
                 status := OrderStatus.pending.value, total_amount := total,
                 shipping_address := d.shipping_address,
                 billing_address := d.billing_address }],
            nextId := stA.nextId + 1 } (toString stA.nextId) = [] := by
        unfold itemsOfOrder
        rw [List.filter_eq_nil_iff]
        intro a ha
        have ha2 : a ∈ st.order_items := by
          rw [← hitems]
          exact ha
        have := hfresh a ha2
        rw [← hnext] at this
        simpa using this
      refine ⟨?_, ?_, ?_, ?_⟩
      · rw [addOrderItems_itemsTotal, hfilter]
        simp [itemsTotal, ht]
      · intro it hit
        rcases addOrderItems_mem pend _ (toString stA.nextId) it hit with hmem | hnew
        · rw [hfilter] at hmem
          exact absurd hmem (List.not_mem_nil it)
        · obtain ⟨pd, hpd, hpid, hup, hq⟩ := hnew
          rw [hpid, hup]
          exact hprice pd hpd
      · intro pid upd
        exact update_product_frame _ pid upd
      · intro today pid req
        exact update_stock_frame _ today pid req

/-- C3 witness: the two-line order placed against `baseState` has
`total_amount` 19 = 2*5 + 3*3, unit prices frozen from the pre-call
catalog, and later product mutations leave its rows alone. -/
theorem C3_witness :
    orderPlacedOk.total_amount = itemsTotal (itemsOfOrder statePlacedOk orderPlacedOk.id) ∧
    (∀ it ∈ itemsOfOrder statePlacedOk orderPlacedOk.id,
        priceOf baseState it.product_id = some it.unit_price) ∧
    (∀ (pid : String) (upd : ProductUpdate),
        (ProductService.update_product statePlacedOk pid upd).1.orders
            = statePlacedOk.orders ∧
        (ProductService.update_product statePlacedOk pid upd).1.order_items
            = statePlacedOk.order_items) ∧
    (∀ (today : Nat) (pid : String) (req : StockUpdateRequest),
        (ProductService.update_stock statePlacedOk today pid req).1.orders
            = statePlacedOk.orders ∧
        (ProductService.update_stock statePlacedOk today pid req).1.order_items
            = statePlacedOk.order_items) :=
  C3_total_equals_item_sum baseState statePlacedOk requestTwoLinesOk orderPlacedOk
    (by intro it hit; simp [baseState] at hit)
    (by
      simp [create_order, processItems, addOrderItems, baseState, requestTwoLinesOk, prodA,
        prodB, catC, DBState.getProduct, DBState.setProductQty, statePlacedOk, orderPlacedOk,
        OrderStatus.value, List.find?, requestTwoLinesFail]
      repeat' apply And.intro
      all_goals first
        | rfl
        | norm_num)

end OrderMe
